import Mathlib

/-!
Verification of the ManagedAD_AWS provisioning orchestration layer.

Shallow embedding of:
* `withRetry` (src/unnamed/part_005, lines 40-63) — the backoff retrier;
* the QuickSight subscription lifecycle handler (src/unnamed/part_005,
  lines 65-156);
* the AD-automation compute lifecycle handler
  (src/lib/lambda/ad-automation/index.ts);
* the group-name wiring of the subscription stack
  (src/lib/stacks/quicksight-subscription-stack.ts, lines 89-108).

Remote AWS services are modelled as oracles: a record field per call site
giving that call's outcome (`Except Err _`).  For calls wrapped in
`withRetry` at the handler level, the oracle field is the call's final
outcome after retries; `withRetry` itself is verified separately and is
shown to propagate the last observed error unchanged, so the composition
is faithful.
-/

namespace ManagedAD

/-- A thrown JS error as the source observes it: `err.name ?? ''` and the
truthiness of `err.$retryable` (part_005 lines 52-53). -/
structure Err where
  name : String
  retryable : Bool
deriving DecidableEq, Repr

/-- part_005 line 54: an error is retried unless it has no `$retryable`
marker and its name is neither `ThrottlingException` nor `InternalFailure`. -/
def retryableErr (e : Err) : Bool :=
  e.retryable || e.name == "ThrottlingException" || e.name == "InternalFailure"

/-- part_005 line 57: `Math.min(baseDelay * 2 ** attempt, 30000) +
(code === 'ThrottlingException' ? 5000 : 0)`. -/
def computeDelay (baseDelay attempt : Nat) (code : String) : Nat :=
  min (baseDelay * 2 ^ attempt) 30000 + (if code = "ThrottlingException" then 5000 else 0)

/-- Observable summary of one run of `withRetry`: the delays slept between
attempts, the number of invocations of the wrapped operation, and the final
outcome.  The `.error none` case models the degenerate `throw lastError`
with `lastError` still `undefined` (only reachable with `maxRetries = 0`). -/
structure RetryRun (T : Type) where
  delays : List Nat
  attempts : Nat
  outcome : Except (Option Err) T
deriving Repr

/-- The loop body of `withRetry` (part_005 lines 46-62).  `results k` is
the outcome of the k-th invocation of `fn`.  On a retryable error the
delay is computed and slept even when the loop is about to exhaust
(exactly as in the source, where the sleep precedes the loop test). -/
def withRetryAux {T : Type} (results : Nat → Except Err T) (baseDelay : Nat) :
    Nat → Option Err → Nat → RetryRun T
  | _, last, 0 => ⟨[], 0, .error last⟩
  | attempt, _, fuel + 1 =>
    match results attempt with
    | .ok v => ⟨[], 1, .ok v⟩
    | .error e =>
      if retryableErr e then
        let rest := withRetryAux results baseDelay (attempt + 1) (some e) fuel
        ⟨computeDelay baseDelay attempt e.name :: rest.delays, rest.attempts + 1, rest.outcome⟩
      else ⟨[], 1, .error (some e)⟩

/-- `withRetry(fn, name, maxRetries = 10, baseDelay = 2000)`
(part_005 lines 40-63), with the sequence of `fn`'s outcomes supplied as
an oracle. -/
def withRetry {T : Type} (results : Nat → Except Err T) (maxRetries baseDelay : Nat) :
    RetryRun T :=
  withRetryAux results baseDelay 0 none maxRetries

/-! ## Remote poller (`waitForCommand`, index.ts lines 198-212) -/

/-- index.ts line 206: the statuses that stop polling. -/
def terminalStatuses : List String := ["Success", "Failed", "Cancelled"]

/-- The polling loop of `waitForCommand` (index.ts lines 201-211).
`polls i` is the outcome of the i-th `GetCommandInvocation` call
(`.error` = the call threw; caught, logged and ignored at line 207-209).
The return type records that the source function returns `void` whether a
terminal status was seen or the 90-poll budget ran out: no error is raised
and no information is returned in either case. -/
def waitLoop (polls : Nat → Except Err String) : Nat → Nat → Except Err Unit
  | _, 0 => .ok ()
  | i, fuel + 1 =>
    match polls i with
    | .ok s => if s ∈ terminalStatuses then .ok () else waitLoop polls (i + 1) fuel
    | .error _ => waitLoop polls (i + 1) fuel

/-- `waitForCommand(instanceId, commandId)` (index.ts lines 198-212):
empty command id returns immediately (line 199), otherwise poll at fixed
interval up to 90 times.  The target instance id is folded into the
`polls` oracle. -/
def waitForCommand (commandId : String) (polls : Nat → Except Err String) :
    Except Err Unit :=
  if commandId = "" then .ok () else waitLoop polls 0 90

/-! ## QuickSight subscription lifecycle handler (part_005 lines 90-156) -/

/-- Lifecycle verb (`Event.RequestType`). -/
inductive RequestType
  | Create
  | Update
  | Delete
deriving DecidableEq, Repr

/-- `ResourceProperties` (part_005 lines 12-24). -/
structure Props where
  DirectoryId : String
  AwsAccountId : String
  AccountName : String
  Edition : String
  AuthenticationMethod : String
  ActiveDirectoryName : String
  AdminGroup : String
  AuthorGroup : Option String
  ReaderGroup : Option String
  NotificationEmail : String
deriving DecidableEq, Repr

/-- The invocation envelope (part_005 lines 26-31). -/
structure QsEvent where
  RequestType : RequestType
  ResourceProperties : Props
  PhysicalResourceId : Option String
deriving DecidableEq, Repr

/-- `Response` (part_005 lines 33-36); `Data` holds the `Status` string. -/
structure QsResponse where
  PhysicalResourceId : String
  Data : Option String
deriving DecidableEq, Repr

/-- The `CreateAccountSubscriptionCommand` input built at part_005
lines 73-83. -/
structure CreateRequest where
  AwsAccountId : String
  AccountName : String
  Edition : String
  AuthenticationMethod : String
  ActiveDirectoryName : String
  AdminGroup : List String
  AuthorGroup : List String
  ReaderGroup : List String
  NotificationEmail : String
deriving DecidableEq, Repr

/-- `createSubscription`'s request construction (part_005 lines 65-84):
`const group = AdminGroup;` and all three group lists are `[group]`. -/
def mkCreateRequest (props : Props) : CreateRequest :=
  let group := props.AdminGroup
  { AwsAccountId := props.AwsAccountId
    AccountName := props.AccountName
    Edition := props.Edition
    AuthenticationMethod := props.AuthenticationMethod
    ActiveDirectoryName := props.ActiveDirectoryName
    AdminGroup := [group]
    AuthorGroup := [group]
    ReaderGroup := [group]
    NotificationEmail := props.NotificationEmail }

/-- One remote QuickSight call, as recorded in the handler's call trace. -/
inductive QsCall
  | describe
  | listNamespaces
  | updateSettings
  | deleteSub
  | create (req : CreateRequest)
deriving DecidableEq, Repr

/-- Reads (`DescribeAccountSubscription`, `ListNamespaces`) do not mutate
the remote account; the other calls do. -/
def isMutating : QsCall → Bool
  | .describe => false
  | .listNamespaces => false
  | .updateSettings => true
  | .deleteSub => true
  | .create _ => true

/-- Oracle for the QuickSight control plane: the final outcome of each
call site after its `withRetry` wrapper has run. -/
structure QsRemote where
  describeStatus : Except Err (Option String)
  namespaces : Except Err (Option String)
  updateSettings : Except Err Unit
  deleteSub : Except Err Unit
  createSub : Except Err Unit

/-- The physical resource id returned by every non-Delete success path
(part_005 lines 121, 143, 148, 152): derived from the account id alone. -/
def qsPhysicalId (awsAccountId : String) : String :=
  "quicksight-subscription-" ++ awsAccountId

/-- The `try` block of the handler (part_005 lines 101-143), returning the
ordered trace of remote calls together with the block's outcome.
The region-mismatch `new Error(...)` at line 119 carries JS name
`Error` and no retryable marker. -/
def qsTryBody (r : QsRemote) (region : Option String) (props : Props) :
    List QsCall × Except Err QsResponse :=
  let a := props.AwsAccountId
  match r.describeStatus with
  | .error e => ([.describe], .error e)
  | .ok status =>
    if status = some "ACCOUNT_CREATED" then
      match r.namespaces with
      | .error e => ([.describe, .listNamespaces], .error e)
      | .ok capacityRegion =>
        match capacityRegion with
        | some cr =>
          if cr ≠ "" ∧ some cr ≠ region then
            ([.describe, .listNamespaces], .error ⟨"Error", false⟩)
          else
            ([.describe, .listNamespaces], .ok ⟨qsPhysicalId a, some "Existing"⟩)
        | none => ([.describe, .listNamespaces], .ok ⟨qsPhysicalId a, some "Existing"⟩)
    else if status = some "UNSUBSCRIBE_FAILED" then
      match r.updateSettings with
      | .error e => ([.describe, .updateSettings], .error e)
      | .ok _ =>
        match r.deleteSub with
        | .error e => ([.describe, .updateSettings, .deleteSub], .error e)
        | .ok _ =>
          match r.createSub with
          | .error e =>
            ([.describe, .updateSettings, .deleteSub, .create (mkCreateRequest props)], .error e)
          | .ok _ =>
            ([.describe, .updateSettings, .deleteSub, .create (mkCreateRequest props)],
              .ok ⟨qsPhysicalId a, some "Created"⟩)
    else
      match r.createSub with
      | .error e => ([.describe, .create (mkCreateRequest props)], .error e)
      | .ok _ => ([.describe, .create (mkCreateRequest props)], .ok ⟨qsPhysicalId a, some "Created"⟩)

/-- The `catch` block (part_005 lines 144-155): `ResourceNotFoundException`
falls back to a create; `InternalFailure` / `ThrottlingException` are
downgraded to a successful partial-failure result; anything else is
rethrown. -/
def qsCatch (r : QsRemote) (props : Props) (g : List QsCall × Except Err QsResponse) :
    List QsCall × Except Err QsResponse :=
  let a := props.AwsAccountId
  match g.2 with
  | .ok resp => (g.1, .ok resp)
  | .error e =>
    if e.name = "ResourceNotFoundException" then
      match r.createSub with
      | .error e2 => (g.1 ++ [.create (mkCreateRequest props)], .error e2)
      | .ok _ => (g.1 ++ [.create (mkCreateRequest props)], .ok ⟨qsPhysicalId a, some "Created"⟩)
    else if e.name = "InternalFailure" ∨ e.name = "ThrottlingException" then
      (g.1, .ok ⟨qsPhysicalId a, some ("PartialFailure-" ++ e.name)⟩)
    else
      (g.1, .error e)

/-- The QuickSight subscription handler (part_005 lines 90-156).
`region` models `process.env.AWS_REGION`.  Delete is a deliberate no-op
returning the previous physical id (lines 96-99). -/
def qsHandler (r : QsRemote) (region : Option String) (event : QsEvent) :
    List QsCall × Except Err QsResponse :=
  match event.RequestType with
  | .Delete => ([], .ok ⟨event.PhysicalResourceId.getD "quicksight-subscription", none⟩)
  | _ => qsCatch r event.ResourceProperties (qsTryBody r region event.ResourceProperties)

/-- Group-name wiring of the subscription stack
(quicksight-subscription-stack.ts lines 89-92): context lookups with the
author and reader groups defaulting to the admin group.  Returns
(adminGroup, authorGroup, readerGroup). -/
def stackGroups (ctxAdmin ctxAuthor ctxReader : Option String) : String × String × String :=
  let adminGroup := ctxAdmin.getD "QuickSightAdmins"
  let authorGroup := ctxAuthor.getD adminGroup
  let readerGroup := ctxReader.getD adminGroup
  (adminGroup, authorGroup, readerGroup)

/-! ## AD-automation compute lifecycle handler (index.ts lines 29-196) -/

/-- `EventProps.ResourceProperties` (index.ts lines 13-20). -/
structure AdProps where
  DirectoryId : String
  SecurityGroupId : String
  SubnetId : String
  InstanceType : String
  KeyPairSecretArn : String
  AdminSecretArn : String
deriving DecidableEq, Repr

/-- The invocation envelope (index.ts lines 11-22). -/
structure AdEvent where
  RequestType : RequestType
  ResourceProperties : AdProps
  PhysicalResourceId : Option String
deriving DecidableEq, Repr

/-- `Response` (index.ts lines 24-27); `Data` holds the `InstanceId`. -/
structure AdResponse where
  PhysicalResourceId : String
  Data : Option String
deriving DecidableEq, Repr

/-- An EC2 image record as used by `launchEC2Instance`
(index.ts lines 75-86): only `ImageId` and `CreationDate` are read. -/
structure Image where
  ImageId : Option String
  CreationDate : Option String
deriving DecidableEq, Repr

/-- The key-pair record returned by `getOrCreateKeyPair`
(index.ts line 55). -/
structure KeyInfo where
  keyName : String
  privateKey : String
deriving DecidableEq, Repr

/-- Environment variables read by the compute handler
(index.ts lines 42-43): `DOMAIN_NAME ?? ''` and the parse of
`DNS_IPS ?? '[]'`. -/
structure AdEnv where
  DOMAIN_NAME : Option String
  dnsIps : List String
deriving Repr

/-- Oracle for the EC2/SSM/SecretsManager control planes, one field per
call site.  `getKeySecret` abstracts `GetSecretValue` followed by
`JSON.parse` into the parsed pair (`KeyPairName?`, `PrivateKey?`); a parse
failure folds into the `.error` case, which the source catches the same
way.  Poll oracles stand for repeated `GetCommandInvocation` calls. -/
structure AdRemote where
  getKeySecret : Except Err (Option String × Option String)
  describeKeyPairs : Except Err Unit
  createKeyPair : Except Err (Option String)
  putSecret : Except Err Unit
  images : Except Err (List Image)
  runInstances : Except Err (Option String)
  terminate : Except Err Unit
  waitRunning : Except Err Unit
  instanceInfoNonempty : Except Err Bool
  getDocBuiltin : Except Err Unit
  getDocCustom : Except Err Unit
  createDocument : Except Err Unit
  sendJoin : String → List String → Except Err (Option String)
  joinPolls : Nat → Except Err String
  getAdminSecret : Except Err (Option String)
  sendRun : Except Err (Option String)
  runPolls : Nat → Except Err String

/-- `getOrCreateKeyPair` (index.ts lines 55-72): try to read and validate
the stored key pair; on any failure fall back to creating a fresh key pair
named from `Date.now()` (modelled by `now`) and persisting it. -/
def getOrCreateKeyPair (r : AdRemote) (now : Nat) : Except Err KeyInfo :=
  let tryPart : Except Err KeyInfo := do
    let (keyPairName, privateKey) ← r.getKeySecret
    let _ ← r.describeKeyPairs
    pure ⟨keyPairName.getD "", privateKey.getD ""⟩
  match tryPart with
  | .ok v => .ok v
  | .error _ => do
    let keyName := "ad-automation-key-" ++ toString now
    let keyMaterial ← r.createKeyPair
    let _ ← r.putSecret
    pure ⟨keyName, keyMaterial.getD ""⟩

/-- Image selection (index.ts line 85): stable sort descending by
`CreationDate ?? ''` and take `[0]?.ImageId`.  Equivalently: the first
list element whose date is strictly greater than every earlier element's
and at least every later element's — computed as a fold keeping the first
maximum. -/
def pickAmiId (images : List Image) : Option String :=
  (images.foldl
    (fun best img =>
      match best with
      | none => some img
      | some b => if b.CreationDate.getD "" < img.CreationDate.getD "" then some img else best)
    none).bind Image.ImageId

/-- `launchEC2Instance` (index.ts lines 74-104): describe images, pick the
newest matching AMI (throwing `new Error('No Windows AMI found')`,
JS name `Error`, when none), then run the instance and return
`Instances?.[0]?.InstanceId ?? ''`. -/
def launchEC2Instance (r : AdRemote) : Except Err String := do
  let imgs ← r.images
  match pickAmiId imgs with
  | none => .error ⟨"Error", false⟩
  | some _ => do
    let instanceId ← r.runInstances
    pure (instanceId.getD "")

/-- index.ts line 121: a single-element DNS list containing a comma is
split on commas. -/
def resolveDnsIps (dnsIps : List String) : List String :=
  match dnsIps with
  | [s] => if s.contains ',' then s.splitOn "," else dnsIps
  | _ => dnsIps

/-- Domain-join document resolution (index.ts lines 124-162): prefer the
built-in `AWS-JoinDirectoryServiceDomain`; else the previously created
custom document; else create the custom document. -/
def resolveJoinDoc (r : AdRemote) : Except Err String :=
  match r.getDocBuiltin with
  | .ok _ => .ok "AWS-JoinDirectoryServiceDomain"
  | .error _ =>
    match r.getDocCustom with
    | .ok _ => .ok "DraupnirMAD-JoinDirectoryServiceDomain"
    | .error _ => do
      let _ ← r.createDocument
      pure "DraupnirMAD-JoinDirectoryServiceDomain"

/-- `joinDomain` (index.ts lines 113-191): check SSM registration (a
missing registration only adds a sleep), resolve the join document, send
the join command and wait, then fetch the admin secret, send the setup
script command and wait. -/
def joinDomain (r : AdRemote) (dnsIps : List String) : Except Err Unit := do
  let _nonempty ← r.instanceInfoNonempty
  let dnsIpAddresses := resolveDnsIps dnsIps
  let useDoc ← resolveJoinDoc r
  let joinCmd ← r.sendJoin useDoc dnsIpAddresses
  let _ ← waitForCommand (joinCmd.getD "") r.joinPolls
  let adminSecret ← r.getAdminSecret
  let _adminPassword := adminSecret.getD ""
  let runCmd ← r.sendRun
  let _ ← waitForCommand (runCmd.getD "") r.runPolls
  pure ()

/-- JS `String.prototype.startsWith` at the character level (Lean's
`String.startsWith` is kernel-opaque, so the embedding uses the
equivalent character-list prefix test to stay executable in proofs). -/
def jsStartsWith (s pre : String) : Bool :=
  s.data.take pre.data.length = pre.data

/-- A mutating EC2 call on the compute handler's Delete path. -/
inductive AdCall
  | terminate (instanceId : String)
deriving DecidableEq, Repr

/-- The Delete branch of the compute handler (index.ts lines 32-39),
instrumented with the trace of terminate calls:
`if (instanceId?.startsWith('i-'))` terminate, then return
`PhysicalResourceId ?? 'deleted'`. -/
def adDeleteTraced (r : AdRemote) (event : AdEvent) :
    List AdCall × Except Err AdResponse :=
  match event.PhysicalResourceId with
  | some pid =>
    if jsStartsWith pid "i-" then
      ([.terminate pid],
        match r.terminate with
        | .error e => .error e
        | .ok _ => .ok ⟨pid, none⟩)
    else ([], .ok ⟨pid, none⟩)
  | none => ([], .ok ⟨"deleted", none⟩)

/-- The compute lifecycle handler (index.ts lines 29-53).  The Create and
Update path runs key material, launch, the running-state wait, and
`joinDomain` in sequence with no try/catch: any error propagates and the
success response (carrying the instance id) is built only at line 52. -/
def adHandler (r : AdRemote) (env : AdEnv) (now : Nat) (event : AdEvent) :
    Except Err AdResponse :=
  match event.RequestType with
  | .Delete => (adDeleteTraced r event).2
  | _ => do
    let keyPairInfo ← getOrCreateKeyPair r now
    let _keyName := keyPairInfo.keyName
    let instanceId ← launchEC2Instance r
    let _ ← r.waitRunning
    let _ ← joinDomain r env.dnsIps
    pure ⟨instanceId, some instanceId⟩

/-! ## Concrete fixtures -/

/-- Sample subscription resource properties. -/
def sampleProps : Props :=
  { DirectoryId := "d-1234567890"
    AwsAccountId := "123456789012"
    AccountName := "draupnir-123456789012"
    Edition := "ENTERPRISE"
    AuthenticationMethod := "ACTIVE_DIRECTORY"
    ActiveDirectoryName := "corp.example.com"
    AdminGroup := "Admins"
    AuthorGroup := some "Authors"
    ReaderGroup := some "Readers"
    NotificationEmail := "ops@example.com" }

/-- A Create invocation with no prior identifier. -/
def createEvent : QsEvent := ⟨.Create, sampleProps, none⟩

/-- A QuickSight oracle where every call succeeds and the subscription
does not yet exist (describe reports no status). -/
def qsRemoteBase : QsRemote :=
  { describeStatus := .ok none
    namespaces := .ok none
    updateSettings := .ok ()
    deleteSub := .ok ()
    createSub := .ok () }

/-- Oracle observing `UNSUBSCRIBE_FAILED` with all recovery calls
succeeding. -/
def qsRemoteUnsubFailed : QsRemote :=
  { qsRemoteBase with describeStatus := .ok (some "UNSUBSCRIBE_FAILED") }

/-- Oracle observing `UNSUBSCRIBE_FAILED` where the recovery
`UpdateAccountSettings` call throws `ResourceNotFoundException`. -/
def qsRemoteUnsubRnf : QsRemote :=
  { qsRemoteBase with
    describeStatus := .ok (some "UNSUBSCRIBE_FAILED")
    updateSettings := .error ⟨"ResourceNotFoundException", false⟩ }

/-- Oracle observing `ACCOUNT_CREATED` with capacity region
`us-west-2`. -/
def qsRemoteAcctCreated : QsRemote :=
  { qsRemoteBase with
    describeStatus := .ok (some "ACCOUNT_CREATED")
    namespaces := .ok (some "us-west-2") }

/-- Oracle where the describe call fails with `InternalFailure` after
retries are exhausted. -/
def qsRemoteInternalFailure : QsRemote :=
  { qsRemoteBase with describeStatus := .error ⟨"InternalFailure", false⟩ }

/-- Oracle where the describe call throws `ResourceNotFoundException`
(the not-yet-subscribed state). -/
def qsRemoteNotFound : QsRemote :=
  { qsRemoteBase with describeStatus := .error ⟨"ResourceNotFoundException", false⟩ }

/-- Retry oracle: a throttling failure, then an internal failure, then
success. -/
def resMixed : Nat → Except Err Unit := fun n =>
  if n = 0 then .error ⟨"ThrottlingException", false⟩
  else if n = 1 then .error ⟨"InternalFailure", false⟩
  else .ok ()

/-- Retry oracle: every attempt fails with the same throttling error. -/
def resThrottle : Nat → Except Err Unit := fun _ => .error ⟨"ThrottlingException", false⟩

/-- Retry oracle: the first attempt fails with a fatal
(non-retryable) error. -/
def resFatal : Nat → Except Err Unit := fun _ => .error ⟨"AccessDenied", false⟩

/-- Retry oracle: a throttling failure, then an internal failure,
forever alternating with the internal failure last at every even
horizon. -/
def resExhaust : Nat → Except Err Unit := fun n =>
  if n % 2 = 0 then .error ⟨"ThrottlingException", false⟩
  else .error ⟨"InternalFailure", false⟩



/-! ### Equation lemmas for the retry loop -/

lemma withRetryAux_zero {T : Type} (results : Nat → Except Err T) (b attempt : Nat)
    (last : Option Err) : withRetryAux results b attempt last 0 = ⟨[], 0, .error last⟩ := rfl

lemma withRetryAux_ok {T : Type} (results : Nat → Except Err T) (b attempt fuel : Nat)
    (last : Option Err) (v : T) (h : results attempt = .ok v) :
    withRetryAux results b attempt last (fuel + 1) = ⟨[], 1, .ok v⟩ := by
  simp [withRetryAux, h]

lemma withRetryAux_retry {T : Type} (results : Nat → Except Err T) (b attempt fuel : Nat)
    (last : Option Err) (e : Err) (h : results attempt = .error e)
    (hr : retryableErr e = true) :
    withRetryAux results b attempt last (fuel + 1) =
      ⟨computeDelay b attempt e.name :: (withRetryAux results b (attempt + 1) (some e) fuel).delays,
        (withRetryAux results b (attempt + 1) (some e) fuel).attempts + 1,
        (withRetryAux results b (attempt + 1) (some e) fuel).outcome⟩ := by
  simp [withRetryAux, h, hr]

lemma withRetryAux_fatal {T : Type} (results : Nat → Except Err T) (b attempt fuel : Nat)
    (last : Option Err) (e : Err) (h : results attempt = .error e)
    (hr : retryableErr e = false) :
    withRetryAux results b attempt last (fuel + 1) = ⟨[], 1, .error (some e)⟩ := by
  simp [withRetryAux, h, hr]

/-- The capped exponential component makes the per-attempt delay
non-decreasing for a fixed error kind. -/
lemma computeDelay_mono (b a : Nat) (c : String) :
    computeDelay b a c ≤ computeDelay b (a + 1) c := by
  unfold computeDelay
  have h : b * 2 ^ a ≤ b * 2 ^ (a + 1) :=
    Nat.mul_le_mul_left b (Nat.pow_le_pow_right (by norm_num) (Nat.le_succ a))
  exact Nat.add_le_add_right (min_le_min h (le_refl 30000)) _

/-- Each loop iteration invokes the operation once, so invocations never
exceed the fuel. -/
lemma withRetryAux_attempts_le {T : Type} (results : Nat → Except Err T) (b : Nat) :
    ∀ fuel attempt last, (withRetryAux results b attempt last fuel).attempts ≤ fuel := by
  intro fuel
  induction fuel with
  | zero => intro attempt last; simp [withRetryAux_zero]
  | succ n ih =>
    intro attempt last
    cases h : results attempt with
    | ok v => simp [withRetryAux_ok results b attempt n last v h]
    | error e =>
      by_cases hr : retryableErr e
      · rw [withRetryAux_retry results b attempt n last e h hr]
        have := ih (attempt + 1) (some e)
        simpa using Nat.add_le_add_right this 1
      · simp [withRetryAux_fatal results b attempt n last e h (by simpa using hr)]

/-- Every recorded delay comes from a retryable failure at the matching
attempt index and equals the source's delay formula. -/
lemma withRetryAux_delays_spec {T : Type} (results : Nat → Except Err T) (b : Nat) :
    ∀ fuel attempt last k,
      k < (withRetryAux results b attempt last fuel).delays.length →
      ∃ e, results (attempt + k) = .error e ∧ retryableErr e = true ∧
        (withRetryAux results b attempt last fuel).delays.getD k 0 =
          computeDelay b (attempt + k) e.name := by
  intro fuel
  induction fuel with
  | zero => intro attempt last k hk; simp [withRetryAux_zero] at hk
  | succ n ih =>
    intro attempt last k hk
    cases h : results attempt with
    | ok v => rw [withRetryAux_ok results b attempt n last v h] at hk; simp at hk
    | error e =>
      by_cases hr : retryableErr e
      · rw [withRetryAux_retry results b attempt n last e h hr] at hk ⊢
        cases k with
        | zero => exact ⟨e, by simpa using h, hr, by simp⟩
        | succ k' =>
          simp only [List.length_cons, Nat.add_lt_add_iff_right] at hk
          obtain ⟨e', h1, h2, h3⟩ := ih (attempt + 1) (some e) k' hk
          refine ⟨e', ?_, h2, ?_⟩
          · rw [show attempt + (k' + 1) = attempt + 1 + k' by omega]; exact h1
          · simpa [show attempt + (k' + 1) = attempt + 1 + k' by omega] using h3
      · rw [withRetryAux_fatal results b attempt n last e h (by simpa using hr)] at hk
        simp at hk

/-- When every failure in the run carries the same error kind, the delay
sequence is non-decreasing. -/
lemma withRetryAux_delays_chain {T : Type} (results : Nat → Except Err T) (b : Nat)
    (c : String) (hu : ∀ j e, results j = .error e → e.name = c) :
    ∀ fuel attempt last, List.Chain' (· ≤ ·) (withRetryAux results b attempt last fuel).delays := by
  intro fuel
  induction fuel with
  | zero => intro attempt last; simp [withRetryAux_zero]
  | succ n ih =>
    intro attempt last
    cases h : results attempt with
    | ok v => simp [withRetryAux_ok results b attempt n last v h]
    | error e =>
      by_cases hr : retryableErr e
      · rw [withRetryAux_retry results b attempt n last e h hr]
        rw [List.chain'_cons']
        refine ⟨?_, ih (attempt + 1) (some e)⟩
        intro y hy
        cases hd : (withRetryAux results b (attempt + 1) (some e) n).delays with
        | nil => rw [hd] at hy; simp at hy
        | cons d rest =>
          rw [hd] at hy
          simp only [List.head?_cons, Option.mem_def, Option.some.injEq] at hy
          have hlen : 0 < (withRetryAux results b (attempt + 1) (some e) n).delays.length := by
            rw [hd]; simp
          obtain ⟨e', h1, _, h3⟩ := withRetryAux_delays_spec results b n (attempt + 1) (some e) 0 hlen
          have hy' : y = computeDelay b (attempt + 1) e'.name := by
            rw [← hy, ← h3, hd]; simp
          rw [hy', hu _ _ h1, hu _ _ h]
          simpa using computeDelay_mono b attempt c
      · simp [withRetryAux_fatal results b attempt n last e h (by simpa using hr)]

/-- When every attempt up to the fuel fails retryably, the loop exhausts:
it throws the error observed at the last attempt, unchanged, having
invoked the operation exactly `fuel` times. -/
lemma withRetryAux_exhaust {T : Type} (results : Nat → Except Err T) (b : Nat) :
    ∀ fuel attempt last, 1 ≤ fuel →
      (∀ k, k < fuel → ∃ e, results (attempt + k) = .error e ∧ retryableErr e = true) →
      ∃ e, results (attempt + (fuel - 1)) = .error e ∧
        (withRetryAux results b attempt last fuel).outcome = .error (some e) ∧
        (withRetryAux results b attempt last fuel).attempts = fuel := by
  intro fuel
  induction fuel with
  | zero => intro attempt last h1 _; exact absurd h1 (by omega)
  | succ n ih =>
    intro attempt last _ h2
    obtain ⟨e, he, hr⟩ := h2 0 (by omega)
    rw [Nat.add_zero] at he
    cases n with
    | zero =>
      rw [withRetryAux_retry results b attempt 0 last e he hr]
      exact ⟨e, by simpa using he, by simp [withRetryAux_zero], by simp [withRetryAux_zero]⟩
    | succ m =>
      rw [withRetryAux_retry results b attempt (m + 1) last e he hr]
      obtain ⟨e', h1', h2', h3'⟩ := ih (attempt + 1) (some e) (by omega) (fun k hk => by
        obtain ⟨e2, he2, hr2⟩ := h2 (k + 1) (by omega)
        exact ⟨e2, by rw [show attempt + 1 + k = attempt + (k + 1) by omega]; exact he2, hr2⟩)
      refine ⟨e', ?_, by simpa using h2', by simpa using h3'⟩
      rw [show attempt + (m + 1 + 1 - 1) = attempt + 1 + (m + 1 - 1) by omega]
      exact h1'

/-! ### Claim theorems for the backoff retrier -/

/-- C1 (amended).  Every delay computed by `withRetry` before retrying
after attempt n equals `min(baseDelay * 2 ^ n, 30000)` plus a fixed 5000ms
penalty exactly when the failing error kind is `ThrottlingException`; and
the sequence of computed delays is non-decreasing whenever all observed
errors share one kind.  (The unconditional non-decreasing statement of the
original claim is refuted by `retry_delay_decrease_counterexample`: a
throttling error followed by a non-throttling one can decrease the
delay.) -/
theorem retry_delay_formula_and_monotone {T : Type} (results : Nat → Except Err T)
    (maxRetries baseDelay : Nat) (c : String) :
    (∀ k, k < (withRetry results maxRetries baseDelay).delays.length →
      ∃ e, results k = .error e ∧ retryableErr e = true ∧
        (withRetry results maxRetries baseDelay).delays.getD k 0 =
          computeDelay baseDelay k e.name)
    ∧ ((∀ j e, results j = .error e → e.name = c) →
        List.Chain' (· ≤ ·) (withRetry results maxRetries baseDelay).delays) := by
  constructor
  · intro k hk
    have := withRetryAux_delays_spec results baseDelay maxRetries 0 none k hk
    simpa [withRetry] using this
  · intro hu
    exact withRetryAux_delays_chain results baseDelay c hu maxRetries 0 none

/-- Witness for C1 at a concrete run: three uniform throttling failures
with base delay 2000 give delays 7000 ≤ 9000 ≤ 13000. -/
theorem retry_delay_formula_and_monotone_witness :
    (∃ e, resThrottle 0 = .error e ∧ retryableErr e = true ∧
      (withRetry resThrottle 3 2000).delays.getD 0 0 = computeDelay 2000 0 e.name)
    ∧ List.Chain' (· ≤ ·) (withRetry resThrottle 3 2000).delays := by
  have h := retry_delay_formula_and_monotone resThrottle 3 2000 "ThrottlingException"
  refine ⟨h.1 0 (by decide), h.2 ?_⟩
  intro j e hj
  have : (⟨"ThrottlingException", false⟩ : Err) = e := by
    simpa [resThrottle] using hj
  rw [← this]

/-- C1 counterexample: with base delay 2000, a throttling failure at
attempt 0 followed by an internal failure at attempt 1 computes delays
7000 then 4000 — a decrease — while neither base component has reached
the 30000ms cap. -/
theorem retry_delay_decrease_counterexample :
    (withRetry resMixed 10 2000).delays = [7000, 4000]
    ∧ ¬ List.Chain' (· ≤ ·) (withRetry resMixed 10 2000).delays
    ∧ 7000 = computeDelay 2000 0 "ThrottlingException"
    ∧ 4000 = computeDelay 2000 1 "InternalFailure"
    ∧ 2000 * 2 ^ 0 < 30000 ∧ 2000 * 2 ^ 1 < 30000 := by
  refine ⟨rfl, ?_, rfl, rfl, by norm_num, by norm_num⟩
  intro hchain
  rw [show (withRetry resMixed 10 2000).delays = [7000, 4000] from rfl] at hchain
  rw [List.chain'_cons] at hchain
  exact absurd hchain.1 (by norm_num)

/-- C2 (amended).  The retrier invokes the operation at most `maxRetries`
times; a fatal (non-retryable) first error propagates after exactly one
invocation with no delay recorded; and when every attempt fails retryably
the last observed error is propagated unchanged after exactly
`maxRetries` invocations.  (No exhausted-retries tag is attached: the
propagated value is the raw last error, as
`retry_exhausted_untagged_counterexample` shows concretely.) -/
theorem retry_attempt_bound_and_propagation {T : Type} (results : Nat → Except Err T)
    (maxRetries baseDelay : Nat) :
    (withRetry results maxRetries baseDelay).attempts ≤ maxRetries
    ∧ (∀ e, 1 ≤ maxRetries → results 0 = .error e → retryableErr e = false →
        withRetry results maxRetries baseDelay = ⟨[], 1, .error (some e)⟩)
    ∧ (1 ≤ maxRetries →
        (∀ k, k < maxRetries → ∃ e, results k = .error e ∧ retryableErr e = true) →
        ∃ e, results (maxRetries - 1) = .error e ∧
          (withRetry results maxRetries baseDelay).outcome = .error (some e) ∧
          (withRetry results maxRetries baseDelay).attempts = maxRetries) := by
  refine ⟨withRetryAux_attempts_le results baseDelay maxRetries 0 none, ?_, ?_⟩
  · intro e h1 h2 h3
    cases maxRetries with
    | zero => exact absurd h1 (by omega)
    | succ n => exact withRetryAux_fatal results baseDelay 0 n none e h2 h3
  · intro h1 h2
    have := withRetryAux_exhaust results baseDelay maxRetries 0 none h1 (fun k hk => by
      simpa using h2 k hk)
    simpa [withRetry] using this

/-- Witness for C2: a fatal error propagates after one invocation, and a
uniformly throttled run of 3 attempts propagates the error observed at
attempt 2. -/
theorem retry_attempt_bound_and_propagation_witness :
    withRetry resFatal 10 2000 = ⟨[], 1, .error (some ⟨"AccessDenied", false⟩)⟩
    ∧ ∃ e, resThrottle (3 - 1) = .error e
        ∧ (withRetry resThrottle 3 2000).outcome = .error (some e)
        ∧ (withRetry resThrottle 3 2000).attempts = 3 := by
  constructor
  · exact (retry_attempt_bound_and_propagation resFatal 10 2000).2.1
      ⟨"AccessDenied", false⟩ (by norm_num) rfl rfl
  · exact (retry_attempt_bound_and_propagation resThrottle 3 2000).2.2 (by norm_num)
      (fun k _ => ⟨⟨"ThrottlingException", false⟩, rfl, rfl⟩)

/-- C2 counterexample for the exhausted-retries tag: after exhausting 2
attempts the propagated value is exactly the raw error observed at the
last attempt — name `InternalFailure`, unmodified — so nothing in the
propagated error marks it as retries-exhausted. -/
theorem retry_exhausted_untagged_counterexample :
    (withRetry resExhaust 2 1000).outcome = .error (some ⟨"InternalFailure", false⟩)
    ∧ resExhaust 1 = .error ⟨"InternalFailure", false⟩ := ⟨rfl, rfl⟩


/-! ### Claim theorems for the remote poller -/

/-- C3 (amended).  `waitForCommand` always returns the non-error void
outcome: when the 90-poll budget elapses without a terminal status it
"gives up" without error, and when a `Failed` terminal status is observed
it returns the very same void value — the two outcomes are therefore not
distinguishable by the caller
(`waitForCommand_indistinguishable_counterexample`). -/
theorem waitForCommand_gave_up_non_error (commandId : String)
    (polls : Nat → Except Err String) :
    waitForCommand commandId polls = .ok () := by
  unfold waitForCommand
  split
  · rfl
  · have h90 : ∀ fuel i, waitLoop polls i fuel = .ok () := by
      intro fuel
      induction fuel with
      | zero => intro i; rfl
      | succ n ih =>
        intro i
        cases h : polls i with
        | ok s =>
          by_cases ht : s ∈ terminalStatuses
          · simp [waitLoop, h, ht]
          · simp [waitLoop, h, ht, ih]
        | error e => simp [waitLoop, h, ih]
    exact h90 90 0

/-- C3 counterexample: a run that never observes a terminal status and a
run that observes `Failed` on the first poll return the identical
outcome. -/
theorem waitForCommand_indistinguishable_counterexample :
    waitForCommand "command-1" (fun _ => .ok "InProgress")
      = waitForCommand "command-1" (fun _ => .ok "Failed")
    ∧ waitForCommand "command-1" (fun _ => .ok "Failed") = .ok () := ⟨rfl, rfl⟩


/-! ### Claim theorems for the subscription workflow -/

/-- A non-Delete invocation is the try body wrapped in the catch. -/
lemma qsHandler_nonDelete (r : QsRemote) (region : Option String) (event : QsEvent)
    (hreq : event.RequestType ≠ .Delete) :
    qsHandler r region event =
      qsCatch r event.ResourceProperties (qsTryBody r region event.ResourceProperties) := by
  cases hrt : event.RequestType with
  | Delete => exact absurd hrt hreq
  | Create => simp [qsHandler, hrt]
  | Update => simp [qsHandler, hrt]

/-- C4 (amended).  On a non-Delete invocation observing
`UNSUBSCRIBE_FAILED`: when the recovery calls all succeed, the call trace
is exactly describe, settings update, force-delete, create — in that
order; and whenever the settings update succeeds, the first three calls
are describe, settings update, force-delete, so every create call comes
after the delete.  (The unconditional claim fails: if the settings update
itself throws `ResourceNotFoundException`, the not-found fallback issues a
create with no delete ever issued —
`qs_unsubscribe_failed_counterexample`.) -/
theorem qs_unsubscribe_failed_delete_then_create (r : QsRemote) (region : Option String)
    (event : QsEvent) (hreq : event.RequestType ≠ .Delete)
    (hstatus : r.describeStatus = .ok (some "UNSUBSCRIBE_FAILED")) :
    (r.updateSettings = .ok () → r.deleteSub = .ok () → r.createSub = .ok () →
      (qsHandler r region event).1 =
        [.describe, .updateSettings, .deleteSub,
          .create (mkCreateRequest event.ResourceProperties)])
    ∧ (r.updateSettings = .ok () →
      (qsHandler r region event).1.take 3 = [.describe, .updateSettings, .deleteSub]) := by
  rw [qsHandler_nonDelete r region event hreq]
  constructor
  · intro hu hd hc
    simp [qsTryBody, qsCatch, hstatus, hu, hd, hc]
  · intro hu
    cases hd : r.deleteSub with
    | error e =>
      by_cases hn : e.name = "ResourceNotFoundException"
      · cases hc : r.createSub with
        | error e2 => simp [qsTryBody, qsCatch, hstatus, hu, hd, hn, hc]
        | ok u => simp [qsTryBody, qsCatch, hstatus, hu, hd, hn, hc]
      · by_cases hn2 : e.name = "InternalFailure" ∨ e.name = "ThrottlingException"
        · simp [qsTryBody, qsCatch, hstatus, hu, hd, hn, hn2]
        · simp [qsTryBody, qsCatch, hstatus, hu, hd, hn, hn2]
    | ok u =>
      cases hc : r.createSub with
      | error e2 =>
        by_cases hn : e2.name = "ResourceNotFoundException"
        · simp [qsTryBody, qsCatch, hstatus, hu, hd, hc, hn]
        · by_cases hn2 : e2.name = "InternalFailure" ∨ e2.name = "ThrottlingException"
          · simp [qsTryBody, qsCatch, hstatus, hu, hd, hc, hn, hn2]
          · simp [qsTryBody, qsCatch, hstatus, hu, hd, hc, hn, hn2]
      | ok u2 => simp [qsTryBody, qsCatch, hstatus, hu, hd, hc]

/-- Witness for C4 at a concrete oracle with all recovery calls
succeeding. -/
theorem qs_unsubscribe_failed_delete_then_create_witness :
    (qsHandler qsRemoteUnsubFailed (some "us-east-1") createEvent).1 =
      [.describe, .updateSettings, .deleteSub, .create (mkCreateRequest sampleProps)] :=
  (qs_unsubscribe_failed_delete_then_create qsRemoteUnsubFailed (some "us-east-1")
    createEvent (by decide) rfl).1 rfl rfl rfl

/-- C4 counterexample: with status `UNSUBSCRIBE_FAILED` and the recovery
`UpdateAccountSettings` call throwing `ResourceNotFoundException`, the
handler issues a create but never issues a delete. -/
theorem qs_unsubscribe_failed_counterexample :
    qsRemoteUnsubRnf.describeStatus = .ok (some "UNSUBSCRIBE_FAILED")
    ∧ QsCall.create (mkCreateRequest sampleProps)
        ∈ (qsHandler qsRemoteUnsubRnf (some "us-east-1") createEvent).1
    ∧ QsCall.deleteSub ∉ (qsHandler qsRemoteUnsubRnf (some "us-east-1") createEvent).1 :=
  ⟨rfl, by decide, by decide⟩


/-- C5 (confirmed).  On a non-Delete invocation observing
`ACCOUNT_CREATED` with a (non-empty) capacity region and a configured
invocation region, the handler issues only the two read calls; on a
region mismatch it fails with the fatal region-mismatch error, and on a
match it succeeds with result Status `Existing`. -/
theorem qs_account_created_frame (r : QsRemote) (region : Option String) (event : QsEvent)
    (cr reg : String) (hreq : event.RequestType ≠ .Delete)
    (hd : r.describeStatus = .ok (some "ACCOUNT_CREATED"))
    (hns : r.namespaces = .ok (some cr))
    (hregion : region = some reg) (hcr : cr ≠ "") :
    (qsHandler r region event).1 = [.describe, .listNamespaces]
    ∧ ((qsHandler r region event).1).filter isMutating = []
    ∧ (cr ≠ reg → (qsHandler r region event).2 = .error ⟨"Error", false⟩)
    ∧ (cr = reg → (qsHandler r region event).2 =
        .ok ⟨qsPhysicalId event.ResourceProperties.AwsAccountId, some "Existing"⟩) := by
  rw [qsHandler_nonDelete r region event hreq]
  by_cases hmatch : cr = reg
  · have hres : qsCatch r event.ResourceProperties
        (qsTryBody r region event.ResourceProperties) =
        ([.describe, .listNamespaces],
          .ok ⟨qsPhysicalId event.ResourceProperties.AwsAccountId, some "Existing"⟩) := by
      simp [qsTryBody, qsCatch, hd, hns, hregion, hmatch]
    rw [hres]
    exact ⟨rfl, rfl, fun hne => absurd hmatch hne, fun _ => rfl⟩
  · have hres : qsCatch r event.ResourceProperties
        (qsTryBody r region event.ResourceProperties) =
        ([.describe, .listNamespaces], .error ⟨"Error", false⟩) := by
      simp [qsTryBody, qsCatch, hd, hns, hregion, hmatch, hcr]
    rw [hres]
    exact ⟨rfl, rfl, fun _ => rfl, fun heq => absurd heq hmatch⟩

/-- Witness for C5: capacity region `us-west-2` against invocation region
`us-east-1` — zero mutating calls and the fatal mismatch error. -/
theorem qs_account_created_frame_witness :
    ((qsHandler qsRemoteAcctCreated (some "us-east-1") createEvent).1).filter isMutating = []
    ∧ (qsHandler qsRemoteAcctCreated (some "us-east-1") createEvent).2 =
        .error ⟨"Error", false⟩ := by
  have h := qs_account_created_frame qsRemoteAcctCreated (some "us-east-1") createEvent
    "us-west-2" "us-east-1" (by decide) rfl rfl rfl (by decide)
  exact ⟨h.2.1, h.2.2.1 (by decide)⟩

/-- C6 (confirmed).  Whenever the try body of a non-Delete invocation
ends in an error whose kind is `InternalFailure` or `ThrottlingException`
(the final outcome after `withRetry` exhausts its retries, which
propagates the error unchanged), the handler does not propagate it: it
returns a successful result whose Status embeds the error kind behind a
`PartialFailure-` tag. -/
theorem qs_partial_failure_on_transient (r : QsRemote) (region : Option String)
    (event : QsEvent) (e : Err) (hreq : event.RequestType ≠ .Delete)
    (htry : (qsTryBody r region event.ResourceProperties).2 = .error e)
    (hname : e.name = "InternalFailure" ∨ e.name = "ThrottlingException") :
    (qsHandler r region event).2 =
      .ok ⟨qsPhysicalId event.ResourceProperties.AwsAccountId,
        some ("PartialFailure-" ++ e.name)⟩ := by
  rw [qsHandler_nonDelete r region event hreq]
  rcases hname with hn | hn <;> simp [qsCatch, htry, hn]

/-- Witness for C6: describe fails with `InternalFailure`; the handler
reports success with Status `PartialFailure-InternalFailure`. -/
theorem qs_partial_failure_on_transient_witness :
    (qsHandler qsRemoteInternalFailure (some "us-east-1") createEvent).2 =
      .ok ⟨qsPhysicalId "123456789012", some "PartialFailure-InternalFailure"⟩ :=
  qs_partial_failure_on_transient qsRemoteInternalFailure (some "us-east-1") createEvent
    ⟨"InternalFailure", false⟩ (by decide) rfl (Or.inl rfl)

/-- C7 (amended).  A Create invocation observing the not-found state
(describe throws `ResourceNotFoundException`) issues exactly one create
call and succeeds with Status `Created` and physical id
`quicksight-subscription-<account>` — `qsPhysicalId` of the account id
alone, hence deterministic across repeated invocations.  (The original
claim's id `sub-<account>` is refuted by
`qs_notfound_id_counterexample`.) -/
theorem qs_notfound_single_create (r : QsRemote) (region : Option String) (event : QsEvent)
    (e : Err) (hreq : event.RequestType = .Create)
    (hd : r.describeStatus = .error e)
    (hname : e.name = "ResourceNotFoundException")
    (hc : r.createSub = .ok ()) :
    qsHandler r region event =
      ([.describe, .create (mkCreateRequest event.ResourceProperties)],
        .ok ⟨qsPhysicalId event.ResourceProperties.AwsAccountId, some "Created"⟩) := by
  rw [qsHandler_nonDelete r region event (by rw [hreq]; exact fun h => by cases h)]
  simp [qsTryBody, qsCatch, hd, hname, hc]

/-- Witness for C7's amended statement at a concrete not-found oracle. -/
theorem qs_notfound_single_create_witness :
    qsHandler qsRemoteNotFound (some "us-east-1") createEvent =
      ([.describe, .create (mkCreateRequest sampleProps)],
        .ok ⟨qsPhysicalId "123456789012", some "Created"⟩) :=
  qs_notfound_single_create qsRemoteNotFound (some "us-east-1") createEvent
    ⟨"ResourceNotFoundException", false⟩ rfl rfl rfl rfl

/-- C7 counterexample: the physical id returned for account
`123456789012` is `quicksight-subscription-123456789012`, which is not
the claimed `sub-123456789012`. -/
theorem qs_notfound_id_counterexample :
    (qsHandler qsRemoteNotFound (some "us-east-1") createEvent).2 =
      .ok ⟨"quicksight-subscription-123456789012", some "Created"⟩
    ∧ "quicksight-subscription-123456789012" ≠ "sub-123456789012" :=
  ⟨rfl, by decide⟩


/-- Properties differing from `sampleProps` only in the author and reader
groups. -/
def samplePropsAltGroups : Props :=
  { sampleProps with AuthorGroup := some "OtherAuthors", ReaderGroup := none }

/-- C10 (confirmed).  The create-subscription request sets AdminGroup,
AuthorGroup and ReaderGroup all to the single supplied AdminGroup value,
so two property sets differing only in AuthorGroup or ReaderGroup yield
identical create requests — even though the stack can supply distinct
author and reader group names via context (`stackGroups`). -/
theorem qs_create_request_collapses_groups (p1 p2 : Props)
    (_h1 : p1.DirectoryId = p2.DirectoryId)
    (h2 : p1.AwsAccountId = p2.AwsAccountId)
    (h3 : p1.AccountName = p2.AccountName)
    (h4 : p1.Edition = p2.Edition)
    (h5 : p1.AuthenticationMethod = p2.AuthenticationMethod)
    (h6 : p1.ActiveDirectoryName = p2.ActiveDirectoryName)
    (h7 : p1.AdminGroup = p2.AdminGroup)
    (h8 : p1.NotificationEmail = p2.NotificationEmail) :
    mkCreateRequest p1 = mkCreateRequest p2
    ∧ (mkCreateRequest p1).AdminGroup = [p1.AdminGroup]
    ∧ (mkCreateRequest p1).AuthorGroup = [p1.AdminGroup]
    ∧ (mkCreateRequest p1).ReaderGroup = [p1.AdminGroup]
    ∧ (stackGroups none (some "Authors") (some "Readers")).2.1
        ≠ (stackGroups none (some "Authors") (some "Readers")).1
    ∧ (stackGroups none (some "Authors") (some "Readers")).2.2
        ≠ (stackGroups none (some "Authors") (some "Readers")).1 := by
  refine ⟨?_, rfl, rfl, rfl, by decide, by decide⟩
  simp [mkCreateRequest, h2, h3, h4, h5, h6, h7, h8]

/-- Witness for C10: concrete property sets differing only in the author
and reader groups produce the same create request. -/
theorem qs_create_request_collapses_groups_witness :
    mkCreateRequest sampleProps = mkCreateRequest samplePropsAltGroups :=
  (qs_create_request_collapses_groups sampleProps samplePropsAltGroups
    rfl rfl rfl rfl rfl rfl rfl rfl).1

/-! ### Fixtures for the compute workflow -/

/-- Sample compute resource properties. -/
def sampleAdProps : AdProps :=
  { DirectoryId := "d-1234567890"
    SecurityGroupId := "sg-0123"
    SubnetId := "subnet-0123"
    InstanceType := "m5.large"
    KeyPairSecretArn := "arn:aws:secretsmanager:kp"
    AdminSecretArn := "arn:aws:secretsmanager:admin" }

/-- Compute environment: domain name and two DNS addresses. -/
def sampleAdEnv : AdEnv := ⟨some "corp.example.com", ["10.0.0.1", "10.0.0.2"]⟩

/-- A Create invocation of the compute handler. -/
def adCreateEvent : AdEvent := ⟨.Create, sampleAdProps, none⟩

/-- A Delete invocation whose previous identifier is not an instance
reference. -/
def adDeleteEventLegacy : AdEvent := ⟨.Delete, sampleAdProps, some "legacy-resource"⟩

/-- A Delete invocation with an instance-reference identifier. -/
def adDeleteEventInstance : AdEvent := ⟨.Delete, sampleAdProps, some "i-0abc123"⟩

/-- Compute oracle where every remote call succeeds. -/
def adRemoteBase : AdRemote :=
  { getKeySecret := .ok (some "draupnir-key", some "PEM")
    describeKeyPairs := .ok ()
    createKeyPair := .ok (some "PEM2")
    putSecret := .ok ()
    images := .ok [⟨some "ami-0001", some "2024-05-01T00:00:00.000Z"⟩]
    runInstances := .ok (some "i-0abc123")
    terminate := .ok ()
    waitRunning := .ok ()
    instanceInfoNonempty := .ok true
    getDocBuiltin := .ok ()
    getDocCustom := .ok ()
    createDocument := .ok ()
    sendJoin := fun _ _ => .ok (some "cmd-join")
    joinPolls := fun _ => .ok "Success"
    getAdminSecret := .ok (some "pw")
    sendRun := .ok (some "cmd-run")
    runPolls := fun _ => .ok "Success" }

/-- Compute oracle where the launch succeeds but the wait for the running
state then fails fatally. -/
def adRemoteWaitFails : AdRemote :=
  { adRemoteBase with waitRunning := .error ⟨"TimeoutError", false⟩ }

/-! ### Claim theorems for the compute workflow -/

/-- C8 (amended).  On a non-Delete invocation, if the key material and
the instance launch succeed but a later step (the running-state wait or
the domain-join/script phase) fails fatally with error `e`, the handler
propagates `e`: no response is returned, so the launched instance
identifier is NOT part of any result (the id is returned only when every
step succeeds).  The original claim is refuted at a concrete input by
`ad_post_launch_failure_counterexample`. -/
theorem ad_post_launch_failure_propagates (r : AdRemote) (env : AdEnv) (now : Nat)
    (event : AdEvent) (e : Err) (kp : KeyInfo) (iid : String)
    (hreq : event.RequestType ≠ .Delete)
    (hkp : getOrCreateKeyPair r now = .ok kp)
    (hlaunch : launchEC2Instance r = .ok iid)
    (hfail : r.waitRunning = .error e
      ∨ (r.waitRunning = .ok () ∧ joinDomain r env.dnsIps = .error e)) :
    adHandler r env now event = .error e := by
  cases hrt : event.RequestType with
  | Delete => exact absurd hrt hreq
  | Create =>
    rcases hfail with hw | ⟨hw, hj⟩
    · simp only [adHandler, hrt, hkp, hlaunch, hw]
      rfl
    · simp only [adHandler, hrt, hkp, hlaunch, hw, hj]
      rfl
  | Update =>
    rcases hfail with hw | ⟨hw, hj⟩
    · simp only [adHandler, hrt, hkp, hlaunch, hw]
      rfl
    · simp only [adHandler, hrt, hkp, hlaunch, hw, hj]
      rfl

/-- Witness for C8's amended statement: launch succeeds, the
running-state wait fails, the handler propagates the error. -/
theorem ad_post_launch_failure_propagates_witness :
    adHandler adRemoteWaitFails sampleAdEnv 0 adCreateEvent =
      .error ⟨"TimeoutError", false⟩ :=
  ad_post_launch_failure_propagates adRemoteWaitFails sampleAdEnv 0 adCreateEvent
    ⟨"TimeoutError", false⟩ ⟨"draupnir-key", "PEM"⟩ "i-0abc123" (by decide) rfl rfl
    (Or.inl rfl)

/-- C8 counterexample: at this input the instance `i-0abc123` has been
launched, yet the handler's outcome is an error carrying no result and
hence no instance identifier — the claim that the identifier is still
returned is false. -/
theorem ad_post_launch_failure_counterexample :
    launchEC2Instance adRemoteWaitFails = .ok "i-0abc123"
    ∧ adHandler adRemoteWaitFails sampleAdEnv 0 adCreateEvent =
        .error ⟨"TimeoutError", false⟩ := ⟨rfl, rfl⟩

/-- C9 (confirmed).  Delete with a previous identifier not matching the
`i-` instance-reference pattern performs no remote mutation and returns
success; with a matching identifier, a terminate call for that instance
is issued. -/
theorem ad_delete_frame (r : AdRemote) (env : AdEnv) (now : Nat) (event : AdEvent)
    (pid : String) (hreq : event.RequestType = .Delete)
    (hpid : event.PhysicalResourceId = some pid) :
    adHandler r env now event = (adDeleteTraced r event).2
    ∧ (jsStartsWith pid "i-" = false → adDeleteTraced r event = ([], .ok ⟨pid, none⟩))
    ∧ (jsStartsWith pid "i-" = true → (adDeleteTraced r event).1 = [.terminate pid]) := by
  refine ⟨by simp [adHandler, hreq], ?_, ?_⟩
  · intro hsw; simp [adDeleteTraced, hpid, hsw]
  · intro hsw; simp [adDeleteTraced, hpid, hsw]

/-- Witness for C9: the identifier `legacy-resource` does not match the
instance pattern, so the Delete is a successful no-op. -/
theorem ad_delete_frame_witness :
    adHandler adRemoteBase sampleAdEnv 0 adDeleteEventLegacy =
      (adDeleteTraced adRemoteBase adDeleteEventLegacy).2
    ∧ adDeleteTraced adRemoteBase adDeleteEventLegacy = ([], .ok ⟨"legacy-resource", none⟩) := by
  have h := ad_delete_frame adRemoteBase sampleAdEnv 0 adDeleteEventLegacy
    "legacy-resource" rfl rfl
  exact ⟨h.1, h.2.1 (by decide)⟩

end ManagedAD
